import Mathlib

/-!
Shallow embedding of the SICAR captcha-gated download orchestrator
(src/SICAR/sicar.py and src/SICAR/exceptions.py).

The network, the PIL image decoder and the captcha solver driver are external
collaborators; each attempt's interactions with them are supplied by an
`AttemptEnv` oracle.  Exceptions become `Except` values, and the observable
side effects (HTTP requests, file opens and chunk writes, backoff sleeps) are
recorded in an event trace.  The Python `while tries > 0` loop decrements
`tries` by exactly one in a `finally` block on every iteration (also on the
`return` path and on an uncaught exception), so it is embedded as structural
recursion on the fuel `tries.toNat`, with the `finally` sleep appended to every
iteration's trace.
-/

set_option maxHeartbeats 1000000

namespace SICAR

/-- Case analysis view of an `Except` value as a sum, used to derive
decidable equality on results. -/
def exceptToSum {ε α : Type} : Except ε α → ε ⊕ α
  | Except.error e => Sum.inl e
  | Except.ok a => Sum.inr a

theorem exceptToSum_inj {ε α : Type} :
    ∀ x y : Except ε α, exceptToSum x = exceptToSum y → x = y := by
  intro x y h
  cases x <;> cases y <;> simp [exceptToSum] at h <;> simp [h]

instance {ε α : Type} [DecidableEq ε] [DecidableEq α] : DecidableEq (Except ε α) :=
  fun x y =>
    decidable_of_iff (exceptToSum x = exceptToSum y)
      ⟨exceptToSum_inj x y, fun h => by rw [h]⟩

/-- Python's `str.startswith`, phrased on the underlying character lists so
that it evaluates by kernel reduction. -/
def starts_with (s pre : String) : Bool := pre.data.isPrefixOf s.data

/-- HTTP response as `sicar.py` observes it: the `response.ok` success flag,
the optional `Content-Length` and `Content-Type` headers, and the body as the
list of chunks that `response.iter_content` yields. -/
structure HttpResponse where
  ok : Bool
  contentLength : Option Nat
  contentType : Option String
  chunks : List (List Nat)
  deriving DecidableEq, Repr

/-- An in-memory decoded captcha image (a PIL `Image`); opaque to the
orchestrator, which only hands it to the solver driver. -/
structure Image where
  data : Nat
  deriving DecidableEq, Repr

/-- The exception classes of `src/SICAR/exceptions.py` that `sicar.py`
imports. -/
inductive SicarError where
  | emailNotValid (email : String)
  | urlNotOk (url : String)
  | stateCodeNotValid (state : String)
  | failedToDownloadCaptcha
  | failedToDownloadShapefile
  | failedToDownloadCsv
  deriving DecidableEq, Repr

/-- Observable side effects of one `download_state` run: the captcha-image GET
(in `_download_captcha`), the solver driver call, the shapefile GET (in
`_download_shapefile`), opening the destination file, writing one chunk, and
the `time.sleep` backoff of the `finally` block. -/
inductive Event where
  | captchaGet
  | solve (s : String)
  | fetchGet
  | fileOpen (path : String)
  | fileWrite (chunk : List Nat)
  | sleep (d : ℚ)
  deriving DecidableEq, Repr

/-- The captcha endpoint of `_download_captcha` (the random cache-busting `id`
query parameter is irrelevant to the control flow and omitted). -/
def captcha_url : String := "https://www.car.gov.br/publico/municipios/ReCaptcha"

/-- The shapefile endpoint `{self._BASE}/estados/downloadBase?...` of
`_download_shapefile` (query string elided). -/
def download_base_url : String := "https://www.car.gov.br/publico/estados/downloadBase"

/-- Embedding of `Sicar._get` (sicar.py lines 106-133): performs the GET (the
response is supplied by the oracle) and raises `UrlNotOkException` if the
response is not ok; otherwise returns the response. -/
def http_get (resp : HttpResponse) (url : String) : Except SicarError HttpResponse :=
  if resp.ok then Except.ok resp else Except.error (SicarError.urlNotOk url)

/-- Embedding of `Sicar._download_captcha` (sicar.py lines 137-162).
`resp` is the response the session returns for the captcha GET, and `decoded`
is the result of `PIL.Image.open` on `resp`'s bytes (`none` means
`UnidentifiedImageError`).  Note that `self._get` already raises
`UrlNotOkException` whenever `response.ok` is false, so the subsequent
`if not response.ok: raise FailedToDownloadCaptchaException()` is unreachable
in its error case; it is kept here for faithfulness. -/
def download_captcha (resp : HttpResponse) (decoded : Option Image) :
    Except SicarError Image :=
  match http_get resp captcha_url with
  | Except.error e => Except.error e
  | Except.ok r =>
    if !r.ok then Except.error SicarError.failedToDownloadCaptcha
    else
      match decoded with
      | none => Except.error SicarError.failedToDownloadCaptcha
      | some img => Except.ok img

/-- The artifact path `Path(os.path.join(folder, f"SHAPE_..._...")).with_suffix(".zip")`
built by `_download_shapefile` (sicar.py line 208). -/
def shape_path (folder state ty : String) : String :=
  folder ++ "/SHAPE_" ++ state ++ "_" ++ ty ++ ".zip"

/-- Embedding of `Sicar._download_shapefile` (sicar.py lines 164-220), given
the response `resp` that the session returns for the shapefile GET.  A
`UrlNotOkException` from `_get` is re-raised as
`FailedToDownloadShapefileException`; then the declared `Content-Length`
(absent read as 0) and `Content-Type` (absent read as "") are checked; only
after both checks pass is the destination file opened and the body streamed to
it chunk by chunk, and the path returned.  The second component is the trace
of observable effects. -/
def download_shapefile (resp : HttpResponse) (state ty folder : String) :
    Except SicarError String × List Event :=
  match http_get resp download_base_url with
  | Except.error _ => (Except.error SicarError.failedToDownloadShapefile, [Event.fetchGet])
  | Except.ok r =>
    let content_length := r.contentLength.getD 0
    let content_type := r.contentType.getD ""
    if content_length == 0 || !(starts_with content_type "application/zip") then
      (Except.error SicarError.failedToDownloadShapefile, [Event.fetchGet])
    else
      let path := shape_path folder state ty
      (Except.ok path, Event.fetchGet :: Event.fileOpen path :: r.chunks.map Event.fileWrite)

/-- The oracle for one loop iteration of `download_state`: the response served
for the captcha GET, the PIL decode outcome of its bytes, the string the
captcha solver driver returns for the decoded image, the response served for
the shapefile GET, and the two `random.random()` draws of the `finally`
backoff. -/
structure AttemptEnv where
  captchaResponse : HttpResponse
  captchaImage : Option Image
  solution : String
  fetchResponse : HttpResponse
  draw1 : ℚ
  draw2 : ℚ
  deriving DecidableEq, Repr

/-- Outcome of the `try` body of one iteration of `download_state`'s loop:
a successful `return` of the artifact path, falling through to the next
iteration (including exceptions caught by the `except` clause), or an
exception that the `except` clause does not catch and which therefore
propagates out of `download_state`. -/
inductive AttemptOutcome where
  | success (p : String)
  | retry
  | uncaught (e : SicarError)
  deriving DecidableEq, Repr

/-- The `except (FailedToDownloadCaptchaException,
FailedToDownloadShapefileException, FailedToDownloadCsvException)` clause of
`download_state` (sicar.py lines 277-281): exactly these three exception
classes are caught; every other exception propagates. -/
def caught_by_loop : SicarError → Bool
  | SicarError.failedToDownloadCaptcha => true
  | SicarError.failedToDownloadShapefile => true
  | SicarError.failedToDownloadCsv => true
  | _ => false

/-- The `try` body of one iteration of `download_state`'s loop (sicar.py lines
257-283): acquire a captcha image, solve it, and — only when the solution has
length 5 — exchange it for the shapefile.  The trace records the effects of
the iteration (the `finally` sleep is appended by the loop itself). -/
def run_attempt (e : AttemptEnv) (state ty folder : String) :
    AttemptOutcome × List Event :=
  match download_captcha e.captchaResponse e.captchaImage with
  | Except.error err =>
    if caught_by_loop err then (AttemptOutcome.retry, [Event.captchaGet])
    else (AttemptOutcome.uncaught err, [Event.captchaGet])
  | Except.ok _ =>
    let captcha := e.solution
    if captcha.length == 5 then
      let d := download_shapefile e.fetchResponse state ty folder
      match d.fst with
      | Except.ok p => (AttemptOutcome.success p, Event.captchaGet :: Event.solve captcha :: d.snd)
      | Except.error err =>
        if caught_by_loop err then
          (AttemptOutcome.retry, Event.captchaGet :: Event.solve captcha :: d.snd)
        else (AttemptOutcome.uncaught err, Event.captchaGet :: Event.solve captcha :: d.snd)
    else (AttemptOutcome.retry, [Event.captchaGet, Event.solve captcha])

/-- The argument of `time.sleep` in `download_state`'s `finally` block
(sicar.py line 286): `random.random() + random.random()`. -/
def backoff (d1 d2 : ℚ) : ℚ := d1 + d2

/-- Caller-visible result of `download_state`: the artifact path on success,
or the Python `return False` exhaustion sentinel. -/
inductive DownloadResult where
  | path (p : String)
  | exhausted
  deriving DecidableEq, Repr

/-- The `while tries > 0` loop of `download_state` (sicar.py lines 256-288),
embedded as structural recursion on the fuel `tries.toNat`: the `finally`
block decrements `tries` by exactly one on every iteration — also when the
iteration ends in `return` or in an uncaught exception — and also executes the
backoff sleep on every iteration, which is why the sleep event is appended on
all three exit paths. -/
def download_state_loop (env : Nat → AttemptEnv) (state ty folder : String) :
    Nat → Nat → Except SicarError DownloadResult × List Event
  | 0, _ => (Except.ok DownloadResult.exhausted, [])
  | fuel + 1, k =>
    let e := env k
    let a := run_attempt e state ty folder
    let evs := a.snd ++ [Event.sleep (backoff e.draw1 e.draw2)]
    match a.fst with
    | AttemptOutcome.success p => (Except.ok (DownloadResult.path p), evs)
    | AttemptOutcome.uncaught err => (Except.error err, evs)
    | AttemptOutcome.retry =>
      let rest := download_state_loop env state ty folder fuel (k + 1)
      (rest.fst, evs ++ rest.snd)

/-- Embedding of `Sicar.download_state` (sicar.py lines 224-288).  The body
performs no validation of `state` whatsoever — `StateCodeNotValidException` is
imported by sicar.py but never raised — so `state` flows unchecked into the
loop.  `tries` is the caller-supplied attempt budget (an `Int`: a
non-positive value never enters the loop). -/
def download_state (env : Nat → AttemptEnv) (state ty folder : String)
    (tries : Int) : Except SicarError DownloadResult × List Event :=
  download_state_loop env state ty folder tries.toNat 0

/-- Whether an event is the captcha-image GET request. -/
def Event.is_captcha_get : Event → Bool
  | Event.captchaGet => true
  | _ => false

/-- Whether an event is the shapefile GET request (a FETCHING-stage network
call). -/
def Event.is_fetch_get : Event → Bool
  | Event.fetchGet => true
  | _ => false

/-- Whether an event is a `time.sleep` backoff execution. -/
def Event.is_sleep : Event → Bool
  | Event.sleep _ => true
  | _ => false

/-- Number of events in a trace satisfying a predicate. -/
def count_events (p : Event → Bool) : List Event → Nat
  | [] => 0
  | ev :: rest => (if p ev then 1 else 0) + count_events p rest

/-- Number of captcha-image GET requests in a trace (one per loop iteration:
every iteration starts with `_download_captcha`, which always issues its GET). -/
def count_captcha_gets (evs : List Event) : Nat :=
  count_events Event.is_captcha_get evs

/-- Number of shapefile GET requests (FETCHING-stage network calls) in a
trace. -/
def count_fetch_gets (evs : List Event) : Nat :=
  count_events Event.is_fetch_get evs

/-- Number of `time.sleep` backoff executions in a trace. -/
def count_sleeps (evs : List Event) : Nat :=
  count_events Event.is_sleep evs

/-- A response whose status is not ok (e.g. HTTP 500). -/
def resp_http_fail : HttpResponse :=
  { ok := false, contentLength := none, contentType := none, chunks := [] }

/-- An ok response carrying a well-formed zip payload of two chunks. -/
def resp_zip_ok : HttpResponse :=
  { ok := true, contentLength := some 2048,
    contentType := some "application/zip", chunks := [[1, 2], [3, 4]] }

/-- An ok (HTTP 200) response whose declared Content-Length is 0: the remote
system's captcha-rejection error page. -/
def resp_rejected : HttpResponse :=
  { ok := true, contentLength := some 0,
    contentType := some "text/html", chunks := [] }

/-- An ok response whose bytes decode as an image. -/
def resp_captcha_ok : HttpResponse :=
  { ok := true, contentLength := some 600,
    contentType := some "image/png", chunks := [[9]] }

/-- Attempt oracle: the captcha GET itself fails at the transport level
(non-ok status). -/
def env_captcha_http_fail : AttemptEnv :=
  { captchaResponse := resp_http_fail, captchaImage := none,
    solution := "", fetchResponse := resp_http_fail, draw1 := 0, draw2 := 0 }

/-- Attempt oracle: the captcha GET succeeds but the bytes are not decodable
as an image (`UnidentifiedImageError`). -/
def env_captcha_undecodable : AttemptEnv :=
  { captchaResponse := resp_rejected, captchaImage := none,
    solution := "", fetchResponse := resp_http_fail, draw1 := 0, draw2 := 0 }

/-- Attempt oracle: everything succeeds — captcha acquired and decoded, the
solver returns a length-5 solution, and the shapefile GET returns a zip. -/
def env_success : AttemptEnv :=
  { captchaResponse := resp_captcha_ok, captchaImage := some { data := 7 },
    solution := "AB123", fetchResponse := resp_zip_ok,
    draw1 := 1/2, draw2 := 1/4 }

/-- Attempt oracle: captcha acquired and solved with a length-5 solution, but
the remote system rejects the exchange (200 with Content-Length 0). -/
def env_fetch_rejected : AttemptEnv :=
  { captchaResponse := resp_captcha_ok, captchaImage := some { data := 7 },
    solution := "AB123", fetchResponse := resp_rejected,
    draw1 := 1/2, draw2 := 1/4 }

/-- Attempt oracle: captcha acquired and decoded but the solver returns a
length-4 guess, so the shape validation gate fails. -/
def env_short_solution : AttemptEnv :=
  { captchaResponse := resp_captcha_ok, captchaImage := some { data := 7 },
    solution := "AB12", fetchResponse := resp_zip_ok,
    draw1 := 1/2, draw2 := 1/4 }

theorem count_events_append (p : Event → Bool) (a b : List Event) :
    count_events p (a ++ b) = count_events p a + count_events p b := by
  induction a with
  | nil => simp [count_events]
  | cons ev rest ih => simp [count_events, ih]; omega

theorem count_events_eq_zero {p : Event → Bool} {evs : List Event}
    (h : ∀ ev ∈ evs, p ev = false) : count_events p evs = 0 := by
  induction evs with
  | nil => simp [count_events]
  | cons ev rest ih =>
    have hev := h ev (List.mem_cons_self ev rest)
    simp [count_events, hev, ih fun x hx => h x (List.mem_cons_of_mem ev hx)]

/-- The trace of `_download_shapefile` contains exactly one shapefile GET and
neither captcha GETs nor sleeps. -/
theorem download_shapefile_counts (resp : HttpResponse) (state ty folder : String) :
    count_fetch_gets (download_shapefile resp state ty folder).snd = 1
    ∧ count_captcha_gets (download_shapefile resp state ty folder).snd = 0
    ∧ count_sleeps (download_shapefile resp state ty folder).snd = 0 := by
  have hmap : ∀ (p : Event → Bool) (l : List (List Nat)),
      (∀ c : List Nat, p (Event.fileWrite c) = false) →
      count_events p (l.map Event.fileWrite) = 0 := by
    intro p l hp
    refine count_events_eq_zero ?_
    intro ev hev
    rcases List.mem_map.mp hev with ⟨c, _, rfl⟩
    exact hp c
  unfold download_shapefile
  cases hg : http_get resp download_base_url with
  | error e =>
    simp [count_fetch_gets, count_captcha_gets, count_sleeps, count_events,
      Event.is_fetch_get, Event.is_captcha_get, Event.is_sleep]
  | ok r =>
    by_cases hc : (r.contentLength.getD 0 == 0
        || !(starts_with (r.contentType.getD "") "application/zip")) = true
    · simp [hc, count_fetch_gets, count_captcha_gets, count_sleeps, count_events,
        Event.is_fetch_get, Event.is_captcha_get, Event.is_sleep]
    · simp only [Bool.not_eq_true] at hc
      simp [hc, count_fetch_gets, count_captcha_gets, count_sleeps, count_events,
        Event.is_fetch_get, Event.is_captcha_get, Event.is_sleep,
        hmap Event.is_fetch_get _ fun _ => rfl,
        hmap Event.is_captcha_get _ fun _ => rfl,
        hmap Event.is_sleep _ fun _ => rfl]

/-- Every iteration body issues exactly one captcha GET and sleeps zero times
(the `finally` sleep is appended by the loop, not by the body). -/
theorem run_attempt_counts (e : AttemptEnv) (state ty folder : String) :
    count_captcha_gets (run_attempt e state ty folder).snd = 1
    ∧ count_sleeps (run_attempt e state ty folder).snd = 0 := by
  unfold run_attempt
  cases hdc : download_captcha e.captchaResponse e.captchaImage with
  | error err =>
    by_cases hcb : caught_by_loop err = true <;>
      simp [hcb, count_captcha_gets, count_sleeps, count_events,
        Event.is_captcha_get, Event.is_sleep]
  | ok img =>
    obtain ⟨-, hc, hs⟩ := download_shapefile_counts e.fetchResponse state ty folder
    simp only [count_captcha_gets, count_sleeps] at hc hs
    by_cases hlen : (e.solution.length == 5) = true
    · cases hd : (download_shapefile e.fetchResponse state ty folder).fst with
      | ok p =>
        simp [hlen, hd, count_captcha_gets, count_sleeps, count_events,
          Event.is_captcha_get, Event.is_sleep, hc, hs]
      | error err =>
        by_cases hcb : caught_by_loop err = true <;>
          simp [hlen, hd, hcb, count_captcha_gets, count_sleeps, count_events,
            Event.is_captcha_get, Event.is_sleep, hc, hs]
    · simp [hlen, count_captcha_gets, count_sleeps, count_events,
        Event.is_captcha_get, Event.is_sleep]

/-- In every run of the loop, the number of backoff sleeps equals the number
of iterations (counted by captcha GETs): the `finally` block sleeps once per
iteration, on all exit paths. -/
theorem download_state_loop_sleeps (env : Nat → AttemptEnv) (state ty folder : String) :
    ∀ fuel k : Nat,
      count_sleeps (download_state_loop env state ty folder fuel k).snd
        = count_captcha_gets (download_state_loop env state ty folder fuel k).snd := by
  intro fuel
  induction fuel with
  | zero =>
    intro k
    simp [download_state_loop, count_sleeps, count_captcha_gets, count_events]
  | succ n ih =>
    intro k
    obtain ⟨hc, hs⟩ := run_attempt_counts (env k) state ty folder
    simp only [count_captcha_gets, count_sleeps] at hc hs
    simp only [download_state_loop]
    cases ha : (run_attempt (env k) state ty folder).fst with
    | success p =>
      simp [ha, count_sleeps, count_captcha_gets, count_events_append,
        count_events, Event.is_sleep, Event.is_captcha_get, hs, hc]
    | uncaught err =>
      simp [ha, count_sleeps, count_captcha_gets, count_events_append,
        count_events, Event.is_sleep, Event.is_captcha_get, hs, hc]
    | retry =>
      have ihk := ih (k + 1)
      simp only [count_sleeps, count_captcha_gets] at ihk ⊢
      simp [ha, count_events_append, count_events, Event.is_sleep,
        Event.is_captcha_get, hs, hc, ihk]

/-- The loop performs at most `fuel` iterations (counted by captcha GETs). -/
theorem download_state_loop_attempts_le (env : Nat → AttemptEnv) (state ty folder : String) :
    ∀ fuel k : Nat,
      count_captcha_gets (download_state_loop env state ty folder fuel k).snd ≤ fuel := by
  intro fuel
  induction fuel with
  | zero =>
    intro k
    simp [download_state_loop, count_captcha_gets, count_events]
  | succ n ih =>
    intro k
    obtain ⟨hc, -⟩ := run_attempt_counts (env k) state ty folder
    simp only [count_captcha_gets] at hc
    simp only [download_state_loop]
    cases ha : (run_attempt (env k) state ty folder).fst with
    | success p =>
      simp only [count_captcha_gets]
      simp [ha, count_events_append, count_events, Event.is_captcha_get, hc]
    | uncaught err =>
      simp only [count_captcha_gets]
      simp [ha, count_events_append, count_events, Event.is_captcha_get, hc]
    | retry =>
      have ihk := ih (k + 1)
      simp only [count_captcha_gets] at ihk
      simp only [count_captcha_gets]
      simp [ha, count_events_append, count_events, Event.is_captcha_get, hc]
      omega

/-- A loop run that returns the exhaustion sentinel performed exactly `fuel`
iterations: every iteration spent exactly one unit of the budget. -/
theorem download_state_loop_exhausted (env : Nat → AttemptEnv) (state ty folder : String) :
    ∀ fuel k : Nat,
      (download_state_loop env state ty folder fuel k).fst
          = Except.ok DownloadResult.exhausted →
        count_captcha_gets (download_state_loop env state ty folder fuel k).snd = fuel := by
  intro fuel
  induction fuel with
  | zero =>
    intro k _
    simp [download_state_loop, count_captcha_gets, count_events]
  | succ n ih =>
    intro k hexh
    obtain ⟨hc, -⟩ := run_attempt_counts (env k) state ty folder
    simp only [download_state_loop] at hexh ⊢
    cases ha : (run_attempt (env k) state ty folder).fst with
    | success p => simp [ha] at hexh
    | uncaught err => simp [ha] at hexh
    | retry =>
      simp only [ha] at hexh
      have ihk := ih (k + 1) hexh
      simp only [count_captcha_gets] at hc ihk ⊢
      simp [ha, count_events_append, count_events, Event.is_captcha_get, hc, ihk]
      omega

/-- C1: the claim says every transient stage error is absorbed inside the
retry loop of `download_state` and only precondition errors propagate.  The
code violates this: when the captcha GET returns a non-success status, `_get`
raises `UrlNotOkException`, which is not in the loop's `except` tuple and
therefore propagates out of `download_state`, as this evaluation at the
failing input (captcha fetch rejected, `tries = 1`) shows. -/
theorem download_state_transport_error_escapes :
    (download_state (fun _ => env_captcha_http_fail) "SP" "SHAPEFILE" "temp" 1).fst
      = Except.error (SicarError.urlNotOk captcha_url)
    ∧ caught_by_loop (SicarError.urlNotOk captcha_url) = false := by
  decide

/-- C2: the claim says `_download_captcha` fails with
`FailedToDownloadCaptchaException`, and with no other exception, exactly when
the HTTP fetch returns a non-success status or the bytes are not decodable.
The code violates the non-success-status half: `_get` already raises
`UrlNotOkException` there, so the function's own `if not response.ok` guard is
unreachable in its error case and the wrong exception escapes. -/
theorem download_captcha_nonok_wrong_exception :
    download_captcha resp_http_fail none = Except.error (SicarError.urlNotOk captcha_url)
    ∧ download_captcha resp_http_fail none
        ≠ Except.error SicarError.failedToDownloadCaptcha := by
  decide

/-- C3: the claim says an invalid region identifier raises a precondition
error before the retry loop performs any attempt.  The code performs no
validation of `state` at all (`StateCodeNotValidException` is imported but
never raised): with the invalid state code "XX" and `tries = 1`, the loop
runs, performs one captcha acquisition (charging the invalid identifier
against the attempt budget), and returns the exhaustion sentinel instead of
raising a precondition error. -/
theorem download_state_no_state_validation :
    (download_state (fun _ => env_captcha_undecodable) "XX" "SHAPEFILE" "temp" 1).fst
      = Except.ok DownloadResult.exhausted
    ∧ count_captcha_gets
        (download_state (fun _ => env_captcha_undecodable) "XX" "SHAPEFILE" "temp" 1).snd
      = 1 := by
  decide

/-- C4: `_download_shapefile` raises `FailedToDownloadShapefileException` if
and only if the exchange request fails at the transport level (non-success
status), or the declared Content-Length is zero or absent, or the Content-Type
does not start with "application/zip"; otherwise it opens the destination
file, streams the payload chunk by chunk, and returns the artifact path. -/
theorem download_shapefile_error_iff (resp : HttpResponse) (state ty folder : String) :
    ((download_shapefile resp state ty folder).fst
        = Except.error SicarError.failedToDownloadShapefile
      ↔ (resp.ok = false ∨ resp.contentLength.getD 0 = 0
          ∨ starts_with (resp.contentType.getD "") "application/zip" = false))
    ∧ (resp.ok = true → resp.contentLength.getD 0 ≠ 0
        → starts_with (resp.contentType.getD "") "application/zip" = true
        → download_shapefile resp state ty folder
            = (Except.ok (shape_path folder state ty),
               Event.fetchGet :: Event.fileOpen (shape_path folder state ty)
                 :: resp.chunks.map Event.fileWrite)) := by
  unfold download_shapefile
  cases hok : resp.ok with
  | false => simp [http_get, hok]
  | true =>
    by_cases hcl : resp.contentLength.getD 0 = 0
    · simp [http_get, hok, hcl]
    · by_cases hct : starts_with (resp.contentType.getD "") "application/zip" = true
      · simp [http_get, hok, hcl, hct]
      · simp only [Bool.not_eq_true] at hct
        simp [http_get, hok, hcl, hct]

/-- Witness for C4: an ok response with nonzero Content-Length and a zip
Content-Type streams its two chunks and returns the artifact path. -/
theorem download_shapefile_error_iff_witness :
    download_shapefile resp_zip_ok "SP" "SHAPEFILE" "temp"
      = (Except.ok (shape_path "temp" "SP" "SHAPEFILE"),
         Event.fetchGet :: Event.fileOpen (shape_path "temp" "SP" "SHAPEFILE")
           :: resp_zip_ok.chunks.map Event.fileWrite) :=
  (download_shapefile_error_iff resp_zip_ok "SP" "SHAPEFILE" "temp").2
    (by decide) (by decide) (by decide)

/-- C5: for every call of `download_state` with `tries ≤ 0` the loop is never
entered: the result is the exhaustion sentinel, the trace is empty, and in
particular zero captcha acquisitions and zero fetch requests are made. -/
theorem download_state_zero_tries (env : Nat → AttemptEnv) (state ty folder : String)
    (tries : Int) (h : tries ≤ 0) :
    download_state env state ty folder tries = (Except.ok DownloadResult.exhausted, [])
    ∧ count_captcha_gets (download_state env state ty folder tries).snd = 0
    ∧ count_fetch_gets (download_state env state ty folder tries).snd = 0 := by
  have h0 : tries.toNat = 0 := Int.toNat_of_nonpos h
  unfold download_state
  rw [h0]
  simp [download_state_loop, count_captcha_gets, count_fetch_gets, count_events]

/-- Witness for C5 at `tries = 0`. -/
theorem download_state_zero_tries_witness :
    (0 : Int) ≤ 0
    ∧ download_state (fun _ => env_success) "SP" "SHAPEFILE" "temp" 0
        = (Except.ok DownloadResult.exhausted, []) :=
  ⟨le_refl 0,
   (download_state_zero_tries (fun _ => env_success) "SP" "SHAPEFILE" "temp" 0
      (le_refl 0)).1⟩

/-- C6: in every attempt whose acquired captcha was solved to a string of
length different from 5, the fetch stage is never invoked — the attempt's
trace contains zero shapefile GETs — and the attempt falls through to the
retry path. -/
theorem run_attempt_shape_invalid_no_fetch (e : AttemptEnv) (state ty folder : String)
    (img : Image)
    (hacq : download_captcha e.captchaResponse e.captchaImage = Except.ok img)
    (hlen : e.solution.length ≠ 5) :
    (run_attempt e state ty folder).fst = AttemptOutcome.retry
    ∧ count_fetch_gets (run_attempt e state ty folder).snd = 0 := by
  unfold run_attempt
  rw [hacq]
  have hb : (e.solution.length == 5) = false := by simp [hlen]
  simp [hb, count_fetch_gets, count_events, Event.is_fetch_get]

/-- Witness for C6: a length-4 solution is retried without any fetch call. -/
theorem run_attempt_shape_invalid_no_fetch_witness :
    (run_attempt env_short_solution "SP" "SHAPEFILE" "temp").fst = AttemptOutcome.retry
    ∧ count_fetch_gets (run_attempt env_short_solution "SP" "SHAPEFILE" "temp").snd = 0 :=
  run_attempt_shape_invalid_no_fetch env_short_solution "SP" "SHAPEFILE" "temp"
    { data := 7 } (by decide) (by decide)

/-- Counterexample to C7: the claim says a successful run returns the
artifact path without sleeping and a run of N attempts sleeps at most N-1
times.  In the code, `time.sleep` lives in the `finally` block, so a run
whose single attempt succeeds still sleeps once (N = 1, sleeps = 1, not 0). -/
theorem download_state_sleeps_on_success_counterexample :
    (download_state (fun _ => env_success) "SP" "SHAPEFILE" "temp" 1).fst
      = Except.ok (DownloadResult.path (shape_path "temp" "SP" "SHAPEFILE"))
    ∧ count_sleeps (download_state (fun _ => env_success) "SP" "SHAPEFILE" "temp" 1).snd = 1
    ∧ count_sleeps (download_state (fun _ => env_success) "SP" "SHAPEFILE" "temp" 1).snd
        ≠ 0 := by
  decide

/-- C7 (amended): the randomized backoff sleep is executed by the `finally`
block on every attempt — including the attempt that succeeds, before the
artifact path is returned, and the final attempt before exhaustion — so a run
performing N attempts sleeps exactly N times: the number of sleeps in any
run's trace equals its number of attempts. -/
theorem download_state_sleep_count_eq_attempts (env : Nat → AttemptEnv)
    (state ty folder : String) (tries : Int) :
    count_sleeps (download_state env state ty folder tries).snd
      = count_captcha_gets (download_state env state ty folder tries).snd := by
  unfold download_state
  exact download_state_loop_sleeps env state ty folder tries.toNat 0

/-- Counterexample to C8: `random.random()` draws from [0,1), which includes
0; at the possible draws (0, 0) the backoff sum is 0, not strictly positive. -/
theorem backoff_zero_draws_counterexample :
    (0 : ℚ) ≤ 0 ∧ (0 : ℚ) < 1 ∧ ¬ 0 < backoff 0 0 := by
  norm_num [backoff]

/-- C8 (amended): for all draws in [0,1), the backoff sum is nonnegative and
strictly below the constant 2; it is strictly positive exactly when at least
one draw is strictly positive. -/
theorem backoff_nonneg_lt_two (a b : ℚ) (ha0 : 0 ≤ a) (ha1 : a < 1)
    (hb0 : 0 ≤ b) (hb1 : b < 1) :
    0 ≤ backoff a b ∧ backoff a b < 2
    ∧ (0 < backoff a b ↔ 0 < a ∨ 0 < b) := by
  unfold backoff
  refine ⟨add_nonneg ha0 hb0, by linarith, ?_, ?_⟩
  · intro h
    by_contra hc
    push_neg at hc
    obtain ⟨h1, h2⟩ := hc
    linarith
  · rintro (h | h) <;> linarith

/-- Witness for C8 at the draws 1/2 and 1/4. -/
theorem backoff_nonneg_lt_two_witness :
    0 ≤ backoff (1/2) (1/4) ∧ backoff (1/2) (1/4) < 2
    ∧ (0 < backoff (1/2) (1/4) ↔ (0 : ℚ) < 1/2 ∨ (0 : ℚ) < 1/4) :=
  backoff_nonneg_lt_two (1/2) (1/4) (by norm_num) (by norm_num)
    (by norm_num) (by norm_num)

/-- C9: the loop spends exactly one unit of the attempt budget per iteration
(also on iterations that end in an exception or a successful return, since the
decrement is in the `finally` block), so every run performs at most
`max(tries, 0)` attempts, and a run that exhausts the budget performs exactly
`max(tries, 0)` attempts. -/
theorem download_state_budget (env : Nat → AttemptEnv) (state ty folder : String)
    (tries : Int) :
    count_captcha_gets (download_state env state ty folder tries).snd ≤ tries.toNat
    ∧ ((download_state env state ty folder tries).fst = Except.ok DownloadResult.exhausted
        → count_captcha_gets (download_state env state ty folder tries).snd
            = tries.toNat) := by
  unfold download_state
  exact ⟨download_state_loop_attempts_le env state ty folder tries.toNat 0,
    download_state_loop_exhausted env state ty folder tries.toNat 0⟩

/-- Witness for C9: a budget of 2 with every exchange rejected is exhausted
after exactly 2 attempts. -/
theorem download_state_budget_witness :
    count_captcha_gets
        (download_state (fun _ => env_fetch_rejected) "SP" "SHAPEFILE" "temp" 2).snd
      ≤ (2 : Int).toNat
    ∧ count_captcha_gets
        (download_state (fun _ => env_fetch_rejected) "SP" "SHAPEFILE" "temp" 2).snd
      = (2 : Int).toNat :=
  ⟨(download_state_budget (fun _ => env_fetch_rejected) "SP" "SHAPEFILE" "temp" 2).1,
   (download_state_budget (fun _ => env_fetch_rejected) "SP" "SHAPEFILE" "temp" 2).2
     (by decide)⟩

/-- C10: whenever `_download_shapefile` fails, its trace contains no file open
and no chunk write: the exception is raised strictly before the destination
path is opened for writing, so a rejected exchange leaves the folder
unchanged. -/
theorem download_shapefile_error_no_file_events (resp : HttpResponse)
    (state ty folder : String) (err : SicarError)
    (h : (download_shapefile resp state ty folder).fst = Except.error err) :
    (∀ p, Event.fileOpen p ∉ (download_shapefile resp state ty folder).snd)
    ∧ (∀ c, Event.fileWrite c ∉ (download_shapefile resp state ty folder).snd) := by
  unfold download_shapefile at h ⊢
  cases hg : http_get resp download_base_url with
  | error e =>
    simp only [hg]
    refine ⟨fun p => ?_, fun c => ?_⟩ <;> simp
  | ok r =>
    by_cases hcond : (r.contentLength.getD 0 == 0
        || !(starts_with (r.contentType.getD "") "application/zip")) = true
    · simp only [hg, hcond]
      refine ⟨fun p => ?_, fun c => ?_⟩ <;> simp
    · simp only [Bool.not_eq_true] at hcond
      rw [hg] at h
      simp [hcond] at h

/-- Witness for C10: the captcha-rejection error page (200, Content-Length 0)
produces a failure whose trace opens and writes nothing. -/
theorem download_shapefile_error_no_file_events_witness :
    Event.fileOpen (shape_path "temp" "SP" "SHAPEFILE")
        ∉ (download_shapefile resp_rejected "SP" "SHAPEFILE" "temp").snd
    ∧ Event.fileWrite [1, 2]
        ∉ (download_shapefile resp_rejected "SP" "SHAPEFILE" "temp").snd :=
  ⟨(download_shapefile_error_no_file_events resp_rejected "SP" "SHAPEFILE" "temp"
      SicarError.failedToDownloadShapefile (by decide)).1 _,
   (download_shapefile_error_no_file_events resp_rejected "SP" "SHAPEFILE" "temp"
      SicarError.failedToDownloadShapefile (by decide)).2 _⟩

end SICAR
